import Mathlib

/-!
Shallow embedding of the command-preparation pipeline of flyctl
(`internal/cli/internal/command/command.go`, `cmd/move.go`, `cmd/domains.go`).

External collaborators (the remote API client, the `survey` prompt library,
Go's `sort.Slice`) are modelled by their results/contracts and passed in as
parameters, matching how the spec treats them as interfaces.
-/

namespace Flyctl

/-- `api.Organization` as used by `command.go`: identifier, display name,
unique slug, and a type tag (`"PERSONAL"` for a user's own account,
`"SHARED"` for team accounts). Named `type_` because `Type` is reserved. -/
structure Organization where
  id : String
  name : String
  slug : String
  type_ : String
deriving DecidableEq, Repr

/-- Error values that flow through the pipeline. Go errors are opaque values
with a message; we model the ones the embedded code creates or inspects.
`interrupt` is survey's `terminal.InterruptErr` (intentional user
cancellation), which `isInterrupt` in `cmd` distinguishes from other prompt
failures. -/
inductive Err where
  /-- `client.ErrNoAuthToken` -/
  | noAuthToken
  /-- an opaque error from a remote API call (e.g. `GetOrganizations`) -/
  | apiError (msg : String)
  /-- `fmt.Errorf("Organization %q not found", slug)` in `RequireOrg` -/
  | orgNotFound (slug : String)
  /-- survey's `terminal.InterruptErr`: the user cancelled the prompt -/
  | interrupt
  /-- any other failure of the prompt mechanism itself -/
  | promptFailed (msg : String)
  /-- guard for an out-of-range index from the prompt; Go would panic, the
  survey `Select` contract guarantees an in-range index -/
  | indexOutOfRange
  /-- an error built from a formatted message (`fmt.Errorf`, `errors.Wrap`) -/
  | msgErr (msg : String)
deriving DecidableEq, Repr

/-- The message carried by each error value, as the Go code formats it.
`%q` wraps the slug in double quotes. The `noAuthToken` message is the one
`client.ErrNoAuthToken` carries (code outside src). -/
def errMsg : Err → String
  | .noAuthToken => "No access token available. Please login with 'flyctl auth login'"
  | .apiError m => m
  | .orgNotFound slug => "Organization \x22" ++ slug ++ "\x22 not found"
  | .interrupt => "interrupt"
  | .promptFailed m => m
  | .indexOutOfRange => "index out of range"
  | .msgErr m => m

/-- The execution context facts the embedded preparers read and write:
whether the client in the context is authenticated
(`client.FromContext(ctx).Authenticated()`), the organization slug override
from the assembled configuration (`config.FromContext(ctx).Organization`),
and the organization stored by `state.WithOrg`. -/
structure Ctx where
  authenticated : Bool
  organizationSlug : String
  org : Option Organization
deriving DecidableEq, Repr

/-! ## Preparer chain (`prepare`, `newRunE`) -/

/-- `Preparer func(context.Context) (context.Context, error)`. A non-nil
error means the returned context is discarded by every caller, so the pair
is modelled as `Except`. -/
def Preparer (σ ε : Type) : Type := σ → Except ε σ

/-- `prepare` from `command.go`: run the preparers in list order, breaking
out of the loop at the first error and returning that error. -/
def prepare {σ ε : Type} (ps : List (Preparer σ ε)) (ctx : σ) : Except ε σ :=
  match ps with
  | [] => .ok ctx
  | p :: rest =>
    match p ctx with
    | .error e => .error e
    | .ok c => prepare rest c

/-- The closure returned by `newRunE` for a non-nil runner `fn`: run the
common preparers, then the command-specific preparers, then the body; the
first error at any stage is returned. A Go `Runner` returns only an error,
modelled as `Option ε` (`none` = success). -/
def runE {σ ε : Type} (common : List (Preparer σ ε)) (fn : σ → Option ε)
    (preparers : List (Preparer σ ε)) (ctx : σ) : Option ε :=
  match prepare common ctx with
  | .error e => some e
  | .ok c =>
    match prepare preparers c with
    | .error e => some e
    | .ok c' => fn c'

/-! ## Session/Org resolver -/

/-- `RequireSession` from `command.go`: if the client in the context is not
authenticated, fail with `client.ErrNoAuthToken`; otherwise pass the context
through unchanged. -/
def RequireSession (ctx : Ctx) : Except Err Ctx :=
  if !ctx.authenticated then .error .noAuthToken else .ok ctx

/-- Go's `<` on the character lists underlying two strings: lexicographic
comparison, element by element. -/
def goCharsLt : List Char → List Char → Bool
  | [], [] => false
  | [], _ :: _ => true
  | _ :: _, [] => false
  | a :: as, b :: bs =>
    if a.val < b.val then true
    else if b.val < a.val then false
    else goCharsLt as bs

/-- Go's `<` on strings (the comparator `orgs[i].Type < orgs[j].Type` in
`command.go`): lexicographic comparison. -/
def goStringLt (a b : String) : Bool :=
  goCharsLt a.data b.data

/-- The documented contract of Go's `sort.Slice` applied as in
`command.go` line 212: `sort.Slice(orgs, func(i, j) { return orgs[i].Type <
orgs[j].Type })`. After the call the slice is a permutation of the input,
sorted with respect to the comparator (no two elements out of order). Go
documents `sort.Slice` as "not guaranteed to be stable", so nothing more
than this may be assumed of the result. -/
def SortSliceByType (orgs sorted : List Organization) : Prop :=
  sorted.Perm orgs ∧
    sorted.Pairwise (fun a b => goStringLt b.type_ a.type_ = false)

instance (orgs sorted : List Organization) : Decidable (SortSliceByType orgs sorted) := by
  unfold SortSliceByType
  infer_instance

/-- The option label `fmt.Sprintf("%s (%s)", org.Name, org.Slug)` used by
both selectors. -/
def orgOption (org : Organization) : String :=
  org.name ++ " (" ++ org.slug ++ ")"

/-- `selectOrg` from `command.go`: build `"<name> (<slug>)"` labels in list
order, ask survey for one selection, and return the organization at the
chosen index. The prompt collaborator `askOne` maps the option labels to a
selected index or an error. An out-of-range index (which survey's `Select`
never produces) is mapped to `Err.indexOutOfRange` where Go would panic. -/
def selectOrg (askOne : List String → Except Err Nat)
    (orgs : List Organization) : Except Err Organization :=
  let options := orgs.map orgOption
  match askOne options with
  | .error e => .error e
  | .ok i =>
    match orgs.get? i with
    | some org => .ok org
    | none => .error .indexOutOfRange

/-- The notice `logger.Warnf("Automatically selected %s organization: %s\n",
strings.ToLower(orgs[0].Type), orgs[0].Name)` emitted on auto-selection. -/
def autoSelectNotice (org : Organization) : String :=
  "Automatically selected " ++ org.type_.toLower ++ " organization: " ++ org.name ++ "\n"

/-- `RequireOrg` from `command.go`. It first runs `RequireSession`, then
fetches the organizations (`getOrganizations` models the
`client.GetOrganizations(nil)` result), sorts them with `sort.Slice` by
type (`sortFn` models the sorting collaborator; theorems constrain it by
`SortSliceByType`), reads the slug override from the configuration in the
context, and evaluates the switch:
  * no override, exactly one organization of type `"PERSONAL"`:
    auto-select it and emit a notice;
  * non-empty override: return the first exact slug match, or
    `Organization %q not found`;
  * otherwise: prompt interactively via `selectOrg`.
Returns the resulting context (with the organization stored by
`state.WithOrg`) paired with the list of emitted notices. -/
def RequireOrg (sortFn : List Organization → List Organization) (ctx : Ctx)
    (getOrganizations : Except Err (List Organization))
    (askOne : List String → Except Err Nat) : Except Err Ctx × List String :=
  match RequireSession ctx with
  | .error e => (.error e, [])
  | .ok ctx =>
    match getOrganizations with
    | .error e => (.error e, [])
    | .ok orgs0 =>
      let orgs := sortFn orgs0
      let slug := ctx.organizationSlug
      let laterCases : Except Err Ctx × List String :=
        if slug ≠ "" then
          match orgs.find? (fun org => slug == org.slug) with
          | some org => (.ok { ctx with org := some org }, [])
          | none => (.error (.orgNotFound slug), [])
        else
          match selectOrg askOne orgs with
          | .error e => (.error e, [])
          | .ok org => (.ok { ctx with org := some org }, [])
      match orgs.head? with
      | some o =>
        if slug = "" ∧ orgs.length = 1 ∧ o.type_ = "PERSONAL" then
          (.ok { ctx with org := some o }, [autoSelectNotice o])
        else laterCases
      | none => laterCases

/-- The legacy `selectOrganization` from `command.go` (used by `runMove`,
`runDomainsList`, `runLaunch`, ...). It takes a `slug` parameter in Go but
its body never reads it. It fetches the organizations (`getOrganizations`
models `client.GetOrganizations(typeFilter)`), auto-selects a sole
`"PERSONAL"` organization *before* sorting, and otherwise sorts by type and
prompts. `stdout` printing of the auto-select message is returned as a
notice list. -/
def selectOrganization (getOrganizations : Except Err (List Organization))
    (slug : String) (sortFn : List Organization → List Organization)
    (askOne : List String → Except Err Nat) : Except Err Organization × List String :=
  match getOrganizations with
  | .error e => (.error e, [])
  | .ok orgs =>
    let promptPath : Except Err Organization × List String :=
      (selectOrg askOne (sortFn orgs), [])
    match orgs.head? with
    | some o =>
      if orgs.length = 1 ∧ o.type_ = "PERSONAL" then
        (.ok o, [autoSelectNotice o])
      else promptPath
    | none => promptPath

/-! ## `runMove` (`cmd/move.go`) -/

/-- The fields of `api.App` that `runMove` reads. -/
structure App where
  name : String
  organizationSlug : String
deriving DecidableEq, Repr

/-- `isInterrupt` from `cmd`: whether an error is survey's
`terminal.InterruptErr`, i.e. the user intentionally cancelled a prompt. -/
def isInterrupt : Err → Bool
  | .interrupt => true
  | _ => false

/-- `runMove` from `cmd/move.go`: fetch the app (wrapping a failure with
"Error fetching app"), select the target organization with the legacy
`selectOrganization` (passing the `--org` slug), treat an interrupt from the
selector as a clean no-op (`return nil`), wrap any other selector failure in
"Error setting organization", then unless `--yes` is set ask for
confirmation (a prompt failure is returned verbatim, a negative answer is a
clean no-op), and finally call `MoveApp` with the selected organization's
id, wrapping a failure with "Failed to move app". Collaborator results are
parameters: `getApp`, `getOrganizations`, `askOne` (organization prompt),
`confirmAnswer` (confirmation prompt), `moveApp` (keyed by org id). -/
def runMove (getApp : Except Err App) (configOrg : String) (configYes : Bool)
    (getOrganizations : Except Err (List Organization))
    (sortFn : List Organization → List Organization)
    (askOne : List String → Except Err Nat)
    (confirmAnswer : Except Err Bool)
    (moveApp : String → Except Err Unit) : Except Err Unit :=
  match getApp with
  | .error e => .error (.msgErr ("Error fetching app: " ++ errMsg e))
  | .ok _app =>
    match (selectOrganization getOrganizations configOrg sortFn askOne).1 with
    | .error e =>
      if isInterrupt e then .ok ()
      else .error (.msgErr ("Error setting organization: " ++ errMsg e))
    | .ok org =>
      let proceed : Except Err Unit :=
        match moveApp org.id with
        | .error e => .error (.msgErr ("Failed to move app: " ++ errMsg e))
        | .ok _ => .ok ()
      if !configYes then
        match confirmAnswer with
        | .error e => .error e
        | .ok confirm => if !confirm then .ok () else proceed
      else proceed

/-! ## Configuration assembly (`loadConfig`) -/

/-- Modelled from the spec: the recognized configuration options
("API base URL, access token, organization slug override, log-verbosity
flags, output-format flag"). The `config` package itself lives in
`internal/cli/internal/config`, outside src/. -/
inductive ConfigKey where
  | apiBaseURL
  | accessToken
  | organization
  | logGQLErrors
  | verboseOutput
  | jsonOutput
deriving DecidableEq, Repr

/-- A configuration: one value per recognized option (values modelled
uniformly as strings). -/
def Config := ConfigKey → String

/-- Modelled from the spec: `config.New` — the built-in defaults every
assembly starts from. -/
def configNew : Config :=
  fun k => match k with
  | .apiBaseURL => "https://api.fly.io"
  | _ => ""

/-- Modelled from the spec: one configuration source (environment, file or
flags) "applying only its own recognized keys" — a partial map from
recognized keys to values; `none` means the source does not set the key. -/
def Layer := ConfigKey → Option String

/-- Modelled from the spec: applying a source layer overwrites exactly the
options the layer sets and leaves every other option unchanged. This is the
common shape of `cfg.ApplyEnv`, `cfg.ApplyFile` and `cfg.ApplyFlags`
(package `config`, outside src/). -/
def applyLayer (cfg : Config) (l : Layer) : Config :=
  fun k => (l k).getD (cfg k)

/-- The error `cfg.ApplyFile` can return: `fs.ErrNotExist` when no file
exists at the path, or a parse failure for a malformed file. -/
inductive FileError where
  | errNotExist
  | malformed (msg : String)
deriving DecidableEq, Repr

/-- `loadConfig` from `command.go`: start from `config.New()`, apply the
environment, then the file — where `err == nil` and
`errors.Is(err, fs.ErrNotExist)` both continue (the latter only logs a
warning) and any other error is returned — and lastly apply the
command-line flags. `fileResult` models the outcome of
`cfg.ApplyFile(path)`: the file's layer, or the error it returns. -/
def loadConfig (env : Layer) (fileResult : Except FileError Layer)
    (flags : Layer) : Except FileError Config :=
  let cfg := configNew
  let cfg := applyLayer cfg env
  match fileResult with
  | .ok l => .ok (applyLayer (applyLayer cfg l) flags)
  | .error .errNotExist => .ok (applyLayer cfg flags)
  | .error e => .error e

/-! ## Concrete fixtures used by witnesses and counterexamples -/

/-- Whether an `Except` result is a success. -/
def exceptIsOk {ε α : Type} : Except ε α → Bool
  | .ok _ => true
  | .error _ => false

/-- Fixture: a shared/team organization. -/
def orgShared1 : Organization :=
  { id := "1", name := "Shared One", slug := "shared-one", type_ := "SHARED" }

/-- Fixture: a personal organization. -/
def orgPersonal1 : Organization :=
  { id := "2", name := "Personal One", slug := "personal-one", type_ := "PERSONAL" }

/-- Fixture: a second personal organization. -/
def orgPersonal2 : Organization :=
  { id := "3", name := "Personal Two", slug := "personal-two", type_ := "PERSONAL" }

/-- Fixture: a shared organization with slug `"acme"`. -/
def orgAcme : Organization :=
  { id := "4", name := "Acme", slug := "acme", type_ := "SHARED" }

/-- Fixture: an authenticated context with no slug override. -/
def ctxAuthed : Ctx := { authenticated := true, organizationSlug := "", org := none }

/-- Fixture: an unauthenticated context. -/
def ctxAnon : Ctx := { authenticated := false, organizationSlug := "", org := none }

/-- Fixture: an authenticated context whose configuration carries the slug
override `"acme"`. -/
def ctxAcme : Ctx := { authenticated := true, organizationSlug := "acme", org := none }

/-- Fixture: a sorting collaborator that leaves the list unchanged (it
satisfies `SortSliceByType` on inputs that are already sorted by type). -/
def sortId : List Organization → List Organization := fun l => l

/-- Fixture: a prompt collaborator whose invocation the user cancels. -/
def askInterrupt : List String → Except Err Nat := fun _ => .error .interrupt

/-- Fixture: a prompt collaborator that selects the first option. -/
def askFirst : List String → Except Err Nat := fun _ => .ok 0

/-- Fixture preparer: increment a numeric context. -/
def incPreparer : Preparer Nat String := fun n => .ok (n + 1)

/-- Fixture preparer: fail with the error `"boom"`. -/
def failPreparer : Preparer Nat String := fun _ => .error "boom"

/-- Fixture preparer: double a numeric context. -/
def doublePreparer : Preparer Nat String := fun n => .ok (n * 2)

/-- Fixture: the app `runMove` operates on. -/
def appFixture : App := { name := "app1", organizationSlug := "personal-one" }

/-- Fixture environment layer: sets the API base URL to `"A"`. -/
def envA : Layer := fun k => if k = .apiBaseURL then some "A" else none

/-- Fixture file layer: sets the API base URL to `"B"` and the organization
slug to `"acme"`. -/
def fileB : Layer := fun k =>
  if k = .apiBaseURL then some "B"
  else if k = .organization then some "acme" else none

/-- Fixture flag layer: sets nothing. -/
def flagsEmpty : Layer := fun _ => none

/-- The configuration assembled from `envA`, `fileB` and `flagsEmpty`. -/
def cfgScenario : Config :=
  applyLayer (applyLayer (applyLayer configNew envA) fileB) flagsEmpty

/-!
# Theorems
-/

/-- Running a concatenated chain first runs the left part; its error, if
any, is the whole chain's result. -/
theorem prepare_append {σ ε : Type} (l₁ l₂ : List (Preparer σ ε)) (ctx : σ) :
    prepare (l₁ ++ l₂) ctx =
      match prepare l₁ ctx with
      | .error e => .error e
      | .ok c => prepare l₂ c := by
  induction l₁ generalizing ctx with
  | nil => rfl
  | cons p rest ih =>
    simp only [List.cons_append, prepare]
    cases p ctx with
    | error e => rfl
    | ok c => exact ih c

/-- C1: the preparer chain is short-circuiting. If the preparers before `p`
succeed (producing context `c`) and `p` fails at `c` with error `e`, then
the whole chain fails with exactly `e`; the preparers after `p` are never
invoked (the result does not depend on `ps₂`); and the command body is
never invoked, whether `p` sits in the common chain (second conjunct,
result independent of the body `fn` and of the command-specific chain) or
in the command-specific chain (third conjunct, result independent of
`fn`). -/
theorem claim1_prepare_short_circuits {σ ε : Type}
    (ps₁ ps₂ : List (Preparer σ ε)) (p : Preparer σ ε) (ctx c : σ) (e : ε)
    (h₁ : prepare ps₁ ctx = .ok c) (h₂ : p c = .error e) :
    prepare (ps₁ ++ p :: ps₂) ctx = .error e ∧
    (∀ (fn : σ → Option ε) (cmdPreparers : List (Preparer σ ε)),
      runE (ps₁ ++ p :: ps₂) fn cmdPreparers ctx = some e) ∧
    (∀ (common : List (Preparer σ ε)) (c₀ : σ) (fn : σ → Option ε),
      prepare common c₀ = .ok ctx →
      runE common fn (ps₁ ++ p :: ps₂) c₀ = some e) := by
  have hfail : prepare (ps₁ ++ p :: ps₂) ctx = .error e := by
    rw [prepare_append, h₁]
    simp only [prepare, h₂]
  refine ⟨hfail, ?_, ?_⟩
  · intro fn cmdPreparers
    simp only [runE, hfail]
  · intro common c₀ fn hc
    simp only [runE, hc, hfail]

/-- Witness for C1 at a concrete chain. -/
theorem claim1_witness :
    prepare ([incPreparer] ++ failPreparer :: [doublePreparer]) 0 = .error "boom" ∧
    (∀ (fn : Nat → Option String) (cmdPreparers : List (Preparer Nat String)),
      runE ([incPreparer] ++ failPreparer :: [doublePreparer]) fn cmdPreparers 0 = some "boom") ∧
    (∀ (common : List (Preparer Nat String)) (c₀ : Nat) (fn : Nat → Option String),
      prepare common c₀ = .ok 0 →
      runE common fn ([incPreparer] ++ failPreparer :: [doublePreparer]) c₀ = some "boom") :=
  claim1_prepare_short_circuits [incPreparer] [doublePreparer] failPreparer 0 1 "boom" rfl rfl

/-- C7: `RequireSession` fails with `NoSession` exactly when the client is
not authenticated, otherwise returns the input context unchanged, and is
idempotent (running it again on its successful result changes nothing). -/
theorem claim7_RequireSession_contract (ctx : Ctx) :
    (RequireSession ctx = .error .noAuthToken ↔ ctx.authenticated = false) ∧
    (ctx.authenticated = true → RequireSession ctx = .ok ctx) ∧
    Except.bind (RequireSession ctx) RequireSession = RequireSession ctx := by
  unfold RequireSession
  cases h : ctx.authenticated <;> simp [Except.bind, h]

/-- Witness for C7 at concrete authenticated and unauthenticated
contexts. -/
theorem claim7_witness :
    (RequireSession ctxAnon = .error .noAuthToken ↔ ctxAnon.authenticated = false) ∧
    (RequireSession ctxAuthed = .ok ctxAuthed) ∧
    Except.bind (RequireSession ctxAnon) RequireSession = RequireSession ctxAnon :=
  ⟨(claim7_RequireSession_contract ctxAnon).1,
   (claim7_RequireSession_contract ctxAuthed).2.1 rfl,
   (claim7_RequireSession_contract ctxAnon).2.2⟩

/-- C6: a missing config file is not an error — `loadConfig` proceeds with
the environment and flag layers only — while any other `ApplyFile` failure
(a malformed file) aborts with exactly that error. -/
theorem claim6_loadConfig_missing_file_tolerated (env flags : Layer) (m : String) :
    loadConfig env (.error .errNotExist) flags =
      .ok (applyLayer (applyLayer configNew env) flags) ∧
    loadConfig env (.error (.malformed m)) flags = .error (.malformed m) :=
  ⟨rfl, rfl⟩

/-- C5: configuration assembly applies defaults, then environment, then
file, then flags, in that fixed order; consequently, for every option the
value is the flag value if the flags set it, else the file value if the
file sets it, else the environment value if the environment sets it, else
the built-in default — the highest-precedence source wins. -/
theorem claim5_loadConfig_precedence (env fileLayer flags : Layer) (cfg : Config)
    (h : loadConfig env (.ok fileLayer) flags = .ok cfg) :
    cfg = applyLayer (applyLayer (applyLayer configNew env) fileLayer) flags ∧
    ∀ k : ConfigKey,
      cfg k = (flags k).getD ((fileLayer k).getD ((env k).getD (configNew k))) := by
  simp only [loadConfig, Except.ok.injEq] at h
  subst h
  exact ⟨rfl, fun k => rfl⟩

/-- Witness for C5: the spec's scenario — env sets base URL `A`, the file
sets base URL `B` and organization `acme`, flags set nothing; the assembled
value of every key follows the precedence chain (in particular the base URL
is `B`). -/
theorem claim5_witness :
    (cfgScenario = applyLayer (applyLayer (applyLayer configNew envA) fileB) flagsEmpty ∧
      ∀ k : ConfigKey,
        cfgScenario k = (flagsEmpty k).getD ((fileB k).getD ((envA k).getD (configNew k)))) ∧
    cfgScenario ConfigKey.apiBaseURL = "B" :=
  ⟨claim5_loadConfig_precedence envA fileB flagsEmpty cfgScenario rfl, rfl⟩

/-- C10: the legacy `selectOrganization` never reads its `slug` parameter —
for every client result and any two slug values its behaviour and result
are identical (first conjunct, which holds definitionally because the body
never mentions `slug`) — and a sole `"PERSONAL"` organization is
auto-selected before any sorting or prompting (second conjunct: the result
is the auto-selection, independent of the sorting collaborator `sortFn` and
of the prompt collaborator `askOne`). -/
theorem claim10_selectOrganization_ignores_slug
    (getOrganizations : Except Err (List Organization))
    (sortFn : List Organization → List Organization)
    (askOne : List String → Except Err Nat) (slug₁ slug₂ : String)
    (o : Organization) :
    selectOrganization getOrganizations slug₁ sortFn askOne =
      selectOrganization getOrganizations slug₂ sortFn askOne ∧
    (o.type_ = "PERSONAL" →
      selectOrganization (.ok [o]) slug₁ sortFn askOne =
        (.ok o, [autoSelectNotice o])) := by
  refine ⟨rfl, fun htype => ?_⟩
  simp [selectOrganization, htype]

/-- Witness for C10: a slug naming an existing organization and a ghost
slug produce identical results, and a sole personal organization is
auto-selected. -/
theorem claim10_witness :
    selectOrganization (.ok [orgPersonal1, orgAcme]) "acme" sortId askFirst =
      selectOrganization (.ok [orgPersonal1, orgAcme]) "ghost-org" sortId askFirst ∧
    selectOrganization (.ok [orgPersonal1]) "acme" sortId askFirst =
      (.ok orgPersonal1, [autoSelectNotice orgPersonal1]) :=
  ⟨(claim10_selectOrganization_ignores_slug (.ok [orgPersonal1, orgAcme]) sortId
      askFirst "acme" "ghost-org" orgPersonal1).1,
   (claim10_selectOrganization_ignores_slug (.ok [orgPersonal1]) sortId
      askFirst "acme" "ghost-org" orgPersonal1).2 rfl⟩

/-- C8: `RequireOrg` requires a session first — on an unauthenticated
context it fails with exactly the `NoSession` error `RequireSession`
produces, for every fetch result, sorting collaborator and prompt
collaborator (so the organization list is never consulted and no selection
logic runs), and it emits no notice. -/
theorem claim8_RequireOrg_requires_session (ctx : Ctx)
    (sortFn : List Organization → List Organization)
    (getOrganizations : Except Err (List Organization))
    (askOne : List String → Except Err Nat)
    (h : ctx.authenticated = false) :
    RequireOrg sortFn ctx getOrganizations askOne = (.error .noAuthToken, []) ∧
    RequireSession ctx = .error .noAuthToken := by
  have hs : RequireSession ctx = .error .noAuthToken := by
    simp [RequireSession, h]
  exact ⟨by simp [RequireOrg, hs], hs⟩

/-- Witness for C8 at a concrete unauthenticated context. -/
theorem claim8_witness :
    RequireOrg sortId ctxAnon (.ok [orgPersonal1]) askFirst =
      (.error .noAuthToken, []) ∧
    RequireSession ctxAnon = .error .noAuthToken :=
  claim8_RequireOrg_requires_session ctxAnon sortId (.ok [orgPersonal1]) askFirst rfl

/-- C4: with an empty slug override and a fetched list containing exactly
one organization of type `"PERSONAL"`, `RequireOrg` selects it, emits the
auto-selection notice naming it, and never invokes the interactive selector
— the result is the same for every prompt collaborator `askOne`. The
sorting collaborator is constrained only by the `sort.Slice` contract. -/
theorem claim4_RequireOrg_auto_selects_sole_personal (ctx : Ctx)
    (o : Organization) (sortFn : List Organization → List Organization)
    (askOne : List String → Except Err Nat)
    (hauth : ctx.authenticated = true) (hslug : ctx.organizationSlug = "")
    (htype : o.type_ = "PERSONAL")
    (hsort : SortSliceByType [o] (sortFn [o])) :
    RequireOrg sortFn ctx (.ok [o]) askOne =
      (.ok { ctx with org := some o }, [autoSelectNotice o]) ∧
    ∃ pre post, autoSelectNotice o = pre ++ o.name ++ post := by
  have hsingle : sortFn [o] = [o] := List.perm_singleton.mp hsort.1
  constructor
  · simp [RequireOrg, RequireSession, hauth, hsingle, hslug, htype]
  · exact ⟨"Automatically selected " ++ o.type_.toLower ++ " organization: ", "\n", rfl⟩

/-- Witness for C4 at a concrete one-element personal list. -/
theorem claim4_witness :
    RequireOrg sortId ctxAuthed (.ok [orgPersonal1]) askInterrupt =
      (.ok { ctxAuthed with org := some orgPersonal1 },
        [autoSelectNotice orgPersonal1]) ∧
    ∃ pre post, autoSelectNotice orgPersonal1 = pre ++ orgPersonal1.name ++ post :=
  claim4_RequireOrg_auto_selects_sole_personal ctxAuthed orgPersonal1 sortId
    askInterrupt rfl rfl rfl (by decide)

/-- With an authenticated context and a non-empty slug override,
`RequireOrg` reduces to scanning the sorted list for the first exact slug
match. -/
theorem RequireOrg_slug_ne (ctx : Ctx)
    (sortFn : List Organization → List Organization)
    (orgs0 : List Organization) (askOne : List String → Except Err Nat)
    (hauth : ctx.authenticated = true)
    (hslug : ctx.organizationSlug ≠ "") :
    RequireOrg sortFn ctx (.ok orgs0) askOne =
      match (sortFn orgs0).find? (fun org => ctx.organizationSlug == org.slug) with
      | some org => (.ok { ctx with org := some org }, [])
      | none => (.error (.orgNotFound ctx.organizationSlug), []) := by
  cases hh : (sortFn orgs0).head? <;>
    simp [RequireOrg, RequireSession, hauth, hslug, hh]

/-- C2: for every non-empty slug override, `RequireOrg` selects an
organization of the fetched list whose slug exactly equals the override
whenever one exists — regardless of the list's size or type distribution —
and otherwise, after the entire list admits no match, fails with the
`OrgNotFound` error whose message names the requested slug. The sorting
collaborator is constrained only by the `sort.Slice` contract. -/
theorem claim2_RequireOrg_slug_override (ctx : Ctx)
    (sortFn : List Organization → List Organization)
    (orgs0 : List Organization) (askOne : List String → Except Err Nat)
    (hauth : ctx.authenticated = true)
    (hslug : ctx.organizationSlug ≠ "")
    (hsort : SortSliceByType orgs0 (sortFn orgs0)) :
    ((∃ o ∈ orgs0, o.slug = ctx.organizationSlug) →
      ∃ o ∈ orgs0, o.slug = ctx.organizationSlug ∧
        RequireOrg sortFn ctx (.ok orgs0) askOne =
          (.ok { ctx with org := some o }, [])) ∧
    ((∀ o ∈ orgs0, o.slug ≠ ctx.organizationSlug) →
      RequireOrg sortFn ctx (.ok orgs0) askOne =
        (.error (.orgNotFound ctx.organizationSlug), []) ∧
      ∃ pre post, errMsg (.orgNotFound ctx.organizationSlug) =
        pre ++ ctx.organizationSlug ++ post) := by
  have hred := RequireOrg_slug_ne ctx sortFn orgs0 askOne hauth hslug
  have hmem : ∀ {o : Organization}, o ∈ sortFn orgs0 ↔ o ∈ orgs0 :=
    fun {o} => hsort.1.mem_iff
  cases hfind : (sortFn orgs0).find? (fun org => ctx.organizationSlug == org.slug) with
  | some org =>
    rw [hfind] at hred
    have horg : (ctx.organizationSlug == org.slug) = true := by
      simpa using List.find?_some hfind
    have hin : org ∈ sortFn orgs0 := List.mem_of_find?_eq_some hfind
    refine ⟨fun _ => ⟨org, hmem.mp hin, (eq_of_beq horg).symm, hred⟩, fun hnone => ?_⟩
    exact absurd (eq_of_beq horg).symm (hnone org (hmem.mp hin))
  | none =>
    rw [hfind] at hred
    have hno := List.find?_eq_none.mp hfind
    refine ⟨fun hex => ?_, fun _ =>
      ⟨hred, "Organization \x22", "\x22 not found", rfl⟩⟩
    obtain ⟨o, ho, hoslug⟩ := hex
    exact absurd (by simp [hoslug]) (hno o (hmem.mpr ho))

/-- Witness for C2: with override `"acme"`, the list containing `orgAcme`
selects it; the list `[personal-one, shared-one]` (the spec's ghost-slug
scenario) fails with `OrgNotFound` naming `"acme"`. -/
theorem claim2_witness :
    (∃ o ∈ [orgPersonal1, orgAcme], o.slug = ctxAcme.organizationSlug ∧
      RequireOrg sortId ctxAcme (.ok [orgPersonal1, orgAcme]) askFirst =
        (.ok { ctxAcme with org := some o }, [])) ∧
    (RequireOrg sortId ctxAcme (.ok [orgPersonal1, orgShared1]) askFirst =
        (.error (.orgNotFound ctxAcme.organizationSlug), []) ∧
      ∃ pre post, errMsg (.orgNotFound ctxAcme.organizationSlug) =
        pre ++ ctxAcme.organizationSlug ++ post) :=
  ⟨(claim2_RequireOrg_slug_override ctxAcme sortId [orgPersonal1, orgAcme]
      askFirst rfl (by decide) (by decide)).1 ⟨orgAcme, by decide, by decide⟩,
   (claim2_RequireOrg_slug_override ctxAcme sortId [orgPersonal1, orgShared1]
      askFirst rfl (by decide) (by decide)).2 (by decide)⟩

/-- C3 counterexample: the `sort.Slice` contract admits an output for the
fetched list `[shared-one, personal-one, personal-two]` in which the two
equal-typed personal entries do **not** keep their relative fetch order —
so the sort at `command.go` line 212 is not a stable sort as the claim
states (`sort.SliceStable` would be; `sort.Slice` is documented as "not
guaranteed to be stable", and its pre-Go-1.19 implementation really
reorders equal elements once a slice spans a shell-sort gap). -/
theorem claim3_counterexample :
    SortSliceByType [orgShared1, orgPersonal1, orgPersonal2]
      [orgPersonal2, orgPersonal1, orgShared1] ∧
    ¬ ([orgPersonal2, orgPersonal1, orgShared1].filter
          (fun o => o.type_ == "PERSONAL") =
        [orgShared1, orgPersonal1, orgPersonal2].filter
          (fun o => o.type_ == "PERSONAL")) := by
  decide

/-- C3 amended: before the decision table is evaluated the fetched list is
sorted by type — the result is a permutation of the fetch in which no
shared/team entry precedes a personal entry (`"PERSONAL" < "SHARED"` under
the comparator) — but the sort is **not** stable: equal-typed entries need
not keep their relative fetch order (see the counterexample). -/
theorem claim3_sort_orders_personal_first (orgs sorted : List Organization)
    (h : SortSliceByType orgs sorted) :
    sorted.Perm orgs ∧
    sorted.Pairwise
      (fun a b => ¬ (a.type_ = "SHARED" ∧ b.type_ = "PERSONAL")) := by
  refine ⟨h.1, h.2.imp ?_⟩
  intro a b hab
  rintro ⟨ha, hb⟩
  rw [ha, hb] at hab
  exact absurd hab (by decide)

/-- Witness for the amended C3 at a concrete sorted permutation. -/
theorem claim3_witness :
    [orgPersonal1, orgShared1].Perm [orgShared1, orgPersonal1] ∧
    [orgPersonal1, orgShared1].Pairwise
      (fun a b => ¬ (a.type_ = "SHARED" ∧ b.type_ = "PERSONAL")) :=
  claim3_sort_orders_personal_first [orgShared1, orgPersonal1]
    [orgPersonal1, orgShared1] (by decide)

/-- C9 counterexample: with an authenticated context, no slug override and
two fetched organizations, a user cancellation of the interactive choice
(`terminal.InterruptErr` from survey) makes `RequireOrg` return that error
— a hard failure of the preparer, not the clean successful no-op the claim
states. (The input list is already sorted, so the identity sorting
collaborator satisfies the `sort.Slice` contract here.) -/
theorem claim9_counterexample :
    (RequireOrg sortId ctxAuthed (.ok [orgPersonal1, orgShared1])
        askInterrupt).1 = .error .interrupt ∧
    exceptIsOk (RequireOrg sortId ctxAuthed (.ok [orgPersonal1, orgShared1])
        askInterrupt).1 = false ∧
    SortSliceByType [orgPersonal1, orgShared1]
      (sortId [orgPersonal1, orgShared1]) :=
  ⟨rfl, rfl, by decide⟩

/-- C9 amended: intentional cancellation is turned into a clean no-op by
the *command* (`runMove`), not by `RequireOrg`. When the organization
selector fails with `e`: `runMove` returns success if `e` is survey's
interrupt (first conjunct) and the fatal "Error setting organization" error
otherwise (second conjunct); `RequireOrg` itself propagates the prompt
error `e` unchanged to the chain as a failure (third conjunct). -/
theorem claim9_cancel_is_noop_in_runMove_not_RequireOrg (app : App)
    (configOrg : String) (configYes : Bool)
    (getOrganizations : Except Err (List Organization))
    (sortFn : List Organization → List Organization)
    (askOne : List String → Except Err Nat)
    (confirmAnswer : Except Err Bool) (moveApp : String → Except Err Unit)
    (e : Err)
    (hsel : (selectOrganization getOrganizations configOrg sortFn askOne).1 =
      .error e) :
    (isInterrupt e = true →
      runMove (.ok app) configOrg configYes getOrganizations sortFn askOne
        confirmAnswer moveApp = .ok ()) ∧
    (isInterrupt e = false →
      runMove (.ok app) configOrg configYes getOrganizations sortFn askOne
        confirmAnswer moveApp =
        .error (.msgErr ("Error setting organization: " ++ errMsg e))) ∧
    (∀ (ctx : Ctx) (orgs0 : List Organization),
      ctx.authenticated = true → ctx.organizationSlug = "" →
      2 ≤ orgs0.length →
      SortSliceByType orgs0 (sortFn orgs0) →
      selectOrg askOne (sortFn orgs0) = .error e →
      (RequireOrg sortFn ctx (.ok orgs0) askOne).1 = .error e) := by
  refine ⟨fun hint => ?_, fun hint => ?_, ?_⟩
  · simp [runMove, hsel, hint]
  · simp [runMove, hsel, hint]
  · intro ctx orgs0 hauth hslug hlen hsort hselOrg
    have hlen' : (sortFn orgs0).length = orgs0.length := hsort.1.length_eq
    have hne : ¬ ((sortFn orgs0).length = 1) := by omega
    cases hh : (sortFn orgs0).head? <;>
      simp [RequireOrg, RequireSession, hauth, hslug, hh, hne, hselOrg]

/-- Witness for the amended C9 at concrete inputs (cancelled prompt over a
two-organization list). -/
theorem claim9_witness :
    (isInterrupt Err.interrupt = true →
      runMove (.ok appFixture) "" true (.ok [orgPersonal1, orgShared1])
        sortId askInterrupt (.ok true) (fun _ => .ok ()) = .ok ()) ∧
    (isInterrupt Err.interrupt = false →
      runMove (.ok appFixture) "" true (.ok [orgPersonal1, orgShared1])
        sortId askInterrupt (.ok true) (fun _ => .ok ()) =
        .error (.msgErr ("Error setting organization: " ++
          errMsg Err.interrupt))) ∧
    (∀ (ctx : Ctx) (orgs0 : List Organization),
      ctx.authenticated = true → ctx.organizationSlug = "" →
      2 ≤ orgs0.length →
      SortSliceByType orgs0 (sortId orgs0) →
      selectOrg askInterrupt (sortId orgs0) = .error Err.interrupt →
      (RequireOrg sortId ctx (.ok orgs0) askInterrupt).1 =
        .error Err.interrupt) :=
  claim9_cancel_is_noop_in_runMove_not_RequireOrg appFixture "" true
    (.ok [orgPersonal1, orgShared1]) sortId askInterrupt (.ok true)
    (fun _ => .ok ()) Err.interrupt rfl

end Flyctl
